import Mathlib

/-
Verification of the PtyKit repository's C source (Sources/Cstdlib/test.c)
against its natural-language specification.

The whole program is:

  int main() {
    int fd = posix_openpt(O_RDWR);
    grantpt(fd);
    unlockpt(fd);
    printf("%s\n", ptsname(fd));
  }

We give a shallow embedding: the operating system's responses to the four
PTY library calls are an oracle (`OSBehavior`), the program's other inputs
(argv, environment, standard input) are a `ProgInput`, and `main` is a pure
function producing the run's observable outcome (`RunResult`): the trace of
library calls it issued with their arguments and results, the bytes written
to standard output, and the process exit status.  Since the program is
straight-line C with no branches, its trace for a given oracle is a fixed
five-element list; per C99 5.1.2.2.3 reaching the closing brace of `main`
returns 0.
-/

namespace PtyKit

/-- Value of O_RDWR from glibc fcntl.h on Linux (the platform the bridging
header targets): octal 02. -/
def O_RDWR : Nat := 2

/-- Value of O_NONBLOCK from glibc fcntl.h on Linux: octal 04000. -/
def O_NONBLOCK : Nat := 2048

/-- One observable library call made during a run, with its argument and
result.  `closeFd` (the POSIX close(2) call) is included in the vocabulary
because the specification talks about closing the master descriptor;
`test.c` itself never calls it.  `ptsname` returning `none` models a NULL
pointer result. -/
inductive Event where
  | openpt (flags : Nat) (ret : Int)
  | grantpt (fd : Int) (ret : Int)
  | unlockpt (fd : Int) (ret : Int)
  | ptsname (fd : Int) (ret : Option String)
  | closeFd (fd : Int)
  | printfCall (fmt : String) (arg : Option String)
  deriving DecidableEq

/-- The oracle of OS responses for one run: what each of the four PTY
library calls returns when the program makes it.  `posix_openpt` returns a
descriptor or -1; `grantpt`/`unlockpt` return 0 or -1; `ptsname` returns a
device path or NULL (`none`). -/
structure OSBehavior where
  openptRet : Int
  grantptRet : Int
  unlockptRet : Int
  ptsnameRet : Option String
  deriving DecidableEq

/-- The program's conventional inputs: command-line arguments, environment
variables and standard input.  `main()` in test.c declares no parameters
and never reads stdin, so none of these can influence the run; they are
carried so that independence from them is a provable statement. -/
structure ProgInput where
  argv : List String
  env : List (String × String)
  stdin : String
  deriving DecidableEq

/-- The observable outcome of one run of the program. -/
structure RunResult where
  trace : List Event
  stdout : String
  exitStatus : Int
  deriving DecidableEq

/-- What glibc printf writes for a "%s" conversion: the pointed-to string,
or the literal "(null)" when handed a NULL pointer (glibc's observed
behavior for this technically-undefined case). -/
def formatS : Option String → String
  | some s => s
  | none => ("(null)")

/-- Shallow embedding of `main` from Sources/Cstdlib/test.c.  The body is a
direct transcription of the four statements: `int fd = posix_openpt(O_RDWR);
grantpt(fd); unlockpt(fd); printf("%s\n", ptsname(fd));`.  Each call is
recorded in the trace with the argument the program passed and the result
the oracle returned; the `printf` writes the ptsname result followed by a
newline; falling off the end of `main` yields exit status 0. -/
def main (os : OSBehavior) (inp : ProgInput) : RunResult :=
  let fd := os.openptRet
  { trace := [ Event.openpt O_RDWR fd
             , Event.grantpt fd os.grantptRet
             , Event.unlockpt fd os.unlockptRet
             , Event.ptsname fd os.ptsnameRet
             , Event.printfCall ("%s\n") os.ptsnameRet ]
  , stdout := formatS os.ptsnameRet ++ "\n"
  , exitStatus := 0 }

/-- Tags naming the PTY-related library calls, used to talk about the order
of the calls in a trace independently of their arguments and results. -/
inductive CallTag where
  | openpt
  | grantpt
  | unlockpt
  | ptsname
  | closeFd
  deriving DecidableEq

/-- The tag of a PTY-related call event (`printf` is not a PTY call). -/
def Event.tag : Event → Option CallTag
  | .openpt _ _ => some CallTag.openpt
  | .grantpt _ _ => some CallTag.grantpt
  | .unlockpt _ _ => some CallTag.unlockpt
  | .ptsname _ _ => some CallTag.ptsname
  | .closeFd _ => some CallTag.closeFd
  | .printfCall _ _ => none

/-- The sequence of PTY-related calls a run issued, in order. -/
def ptySeq (r : RunResult) : List CallTag :=
  r.trace.filterMap Event.tag

/-- The flag arguments of the posix_openpt calls of a run, in order. -/
def openptFlags (r : RunResult) : List Nat :=
  r.trace.filterMap fun e => match e with
    | .openpt flags _ => some flags
    | _ => none

/-- The results returned by the posix_openpt calls of a run, in order. -/
def openptRets (r : RunResult) : List Int :=
  r.trace.filterMap fun e => match e with
    | .openpt _ ret => some ret
    | _ => none

/-- How many times a run invoked posix_openpt. -/
def openptCalls (r : RunResult) : Nat :=
  (openptRets r).length

/-- The descriptor arguments passed to grantpt during a run, in order. -/
def grantptArgs (r : RunResult) : List Int :=
  r.trace.filterMap fun e => match e with
    | .grantpt fd _ => some fd
    | _ => none

/-- The descriptor arguments passed to unlockpt during a run, in order. -/
def unlockptArgs (r : RunResult) : List Int :=
  r.trace.filterMap fun e => match e with
    | .unlockpt fd _ => some fd
    | _ => none

/-- The descriptor arguments passed to ptsname during a run, in order. -/
def ptsnameArgs (r : RunResult) : List Int :=
  r.trace.filterMap fun e => match e with
    | .ptsname fd _ => some fd
    | _ => none

/-- The descriptor arguments passed to close(2) during a run, in order. -/
def closeArgs (r : RunResult) : List Int :=
  r.trace.filterMap fun e => match e with
    | .closeFd fd => some fd
    | _ => none

/-- The arguments handed to printf for its "%s" conversion during a run
(`none` is a NULL pointer), in order. -/
def printfArgs (r : RunResult) : List (Option String) :=
  r.trace.filterMap fun e => match e with
    | .printfCall _ arg => some arg
    | _ => none

/-- Number of master descriptors a run successfully opened: posix_openpt
calls whose result was a valid (non-negative) descriptor. -/
def mastersOpened (r : RunResult) : Nat :=
  (r.trace.filter fun e => match e with
    | .openpt _ ret => decide (0 ≤ ret)
    | _ => false).length

/-- Number of close(2) calls a run made. -/
def mastersClosed (r : RunResult) : Nat :=
  (closeArgs r).length

/-- The calls a run issued, each with the argument the program chose (the
flag word for posix_openpt, the descriptor for the others); results and
printf output are excluded, so this is exactly "the sequence of PTY calls
it issues". -/
def callsIssued (r : RunResult) : List (CallTag × Int) :=
  r.trace.filterMap fun e => match e with
    | .openpt flags _ => some (CallTag.openpt, (flags : Int))
    | .grantpt fd _ => some (CallTag.grantpt, fd)
    | .unlockpt fd _ => some (CallTag.unlockpt, fd)
    | .ptsname fd _ => some (CallTag.ptsname, fd)
    | .closeFd fd => some (CallTag.closeFd, fd)
    | .printfCall _ _ => none

/-- Claim C1: on every run, the handshake calls occur in the strict order
posix_openpt, then grantpt, then unlockpt, then ptsname; no step is skipped
and no later step precedes an earlier one. -/
theorem C1_handshake_order (os : OSBehavior) (inp : ProgInput) :
    ptySeq (main os inp) =
      [CallTag.openpt, CallTag.grantpt, CallTag.unlockpt, CallTag.ptsname] :=
  rfl

/-- Claim C2 counterexample: on the concrete run where posix_openpt returns
descriptor 5 and grantpt fails with -1, it is not the case that the master
descriptor is closed and the slave path left unresolved — main issues no
close call at all, still applies ptsname to the descriptor, and exits 0. -/
theorem C2_counterexample :
    (OSBehavior.mk 5 (-1) 0 (some ("/dev/pts/3"))).grantptRet = -1 ∧
    ¬ ((5 : Int) ∈ closeArgs (main (OSBehavior.mk 5 (-1) 0 (some ("/dev/pts/3")))
          (ProgInput.mk [] [] (""))) ∧
       ptsnameArgs (main (OSBehavior.mk 5 (-1) 0 (some ("/dev/pts/3")))
          (ProgInput.mk [] [] (""))) = []) := by
  constructor
  · rfl
  · intro h
    exact absurd h.1 (by decide)

/-- Claim C2 (amended): for every run in which grantpt or unlockpt fails,
main ignores the failure — the master descriptor is never closed, ptsname
is still applied to it, and the run still ends with exit status 0, so no
AllocationError is surfaced. -/
theorem C2_failure_ignored (os : OSBehavior) (inp : ProgInput)
    (h : os.grantptRet = -1 ∨ os.unlockptRet = -1) :
    closeArgs (main os inp) = [] ∧
    ptsnameArgs (main os inp) = [os.openptRet] ∧
    (main os inp).exitStatus = 0 :=
  ⟨rfl, rfl, rfl⟩

/-- Claim C2 amended-theorem witness: instantiation at the concrete run
where posix_openpt returns 5 and grantpt fails. -/
theorem C2_failure_ignored_witness :
    closeArgs (main (OSBehavior.mk 5 (-1) 0 (some ("/dev/pts/3")))
        (ProgInput.mk [] [] (""))) = [] ∧
    ptsnameArgs (main (OSBehavior.mk 5 (-1) 0 (some ("/dev/pts/3")))
        (ProgInput.mk [] [] (""))) = [(5 : Int)] ∧
    (main (OSBehavior.mk 5 (-1) 0 (some ("/dev/pts/3")))
        (ProgInput.mk [] [] (""))).exitStatus = 0 :=
  C2_failure_ignored (OSBehavior.mk 5 (-1) 0 (some ("/dev/pts/3")))
    (ProgInput.mk [] [] ("")) (Or.inl rfl)

/-- Claim C3 counterexample: on a concrete run, the flag word passed to
posix_openpt does not include both O_RDWR and O_NONBLOCK — the program
passes exactly O_RDWR, whose bits do not contain O_NONBLOCK. -/
theorem C3_counterexample :
    ¬ (∀ f ∈ openptFlags (main (OSBehavior.mk 3 0 0 (some ("/dev/pts/0")))
          (ProgInput.mk [] [] (""))),
        f &&& O_RDWR = O_RDWR ∧ f &&& O_NONBLOCK = O_NONBLOCK) := by
  intro h
  have hmem : O_RDWR ∈ openptFlags (main (OSBehavior.mk 3 0 0 (some ("/dev/pts/0")))
      (ProgInput.mk [] [] (""))) := by decide
  exact absurd (h O_RDWR hmem).2 (by decide)

/-- Claim C3 (amended): on every run the flag argument passed to
posix_openpt is exactly O_RDWR (read-write); the non-blocking flag is not
part of it, since O_RDWR's bits do not include O_NONBLOCK. -/
theorem C3_flags_rdwr_only (os : OSBehavior) (inp : ProgInput) :
    openptFlags (main os inp) = [O_RDWR] ∧ O_RDWR &&& O_NONBLOCK = 0 :=
  ⟨rfl, by decide⟩

/-- Claim C4 counterexample: on the concrete run where posix_openpt
succeeds with descriptor 7, one master descriptor is opened and zero are
closed, so the open-descriptor count does not return to its baseline before
the program finishes. -/
theorem C4_counterexample :
    mastersOpened (main (OSBehavior.mk 7 0 0 (some ("/dev/pts/1")))
        (ProgInput.mk [] [] (""))) = 1 ∧
    mastersClosed (main (OSBehavior.mk 7 0 0 (some ("/dev/pts/1")))
        (ProgInput.mk [] [] (""))) = 0 ∧
    mastersClosed (main (OSBehavior.mk 7 0 0 (some ("/dev/pts/1")))
        (ProgInput.mk [] [] (""))) ≠
      mastersOpened (main (OSBehavior.mk 7 0 0 (some ("/dev/pts/1")))
        (ProgInput.mk [] [] (""))) := by
  refine ⟨by decide, rfl, by decide⟩

/-- Claim C4 (amended): the program never closes the master descriptor — on
every run zero close calls are made, so after a run whose posix_openpt
succeeded exactly one master descriptor is still open when the program
finishes (it is released only by process exit). -/
theorem C4_never_closed (os : OSBehavior) (inp : ProgInput) :
    mastersClosed (main os inp) = 0 ∧
    (0 ≤ os.openptRet → mastersOpened (main os inp) = 1) := by
  refine ⟨rfl, fun h => ?_⟩
  simp [mastersOpened, main, h]

/-- Claim C4 amended-theorem witness: instantiation at a concrete
successful run. -/
theorem C4_never_closed_witness :
    mastersClosed (main (OSBehavior.mk 9 0 0 (some ("/dev/pts/7")))
        (ProgInput.mk [] [] (""))) = 0 ∧
    mastersOpened (main (OSBehavior.mk 9 0 0 (some ("/dev/pts/7")))
        (ProgInput.mk [] [] (""))) = 1 := by
  have h := C4_never_closed (OSBehavior.mk 9 0 0 (some ("/dev/pts/7")))
    (ProgInput.mk [] [] (""))
  exact ⟨h.1, h.2 (by decide)⟩

/-- Claim C5: on every run, ptsname — and likewise grantpt and unlockpt —
is applied to exactly the descriptor value posix_openpt returned; the
descriptor is never substituted before the slave path is resolved. -/
theorem C5_same_pair (os : OSBehavior) (inp : ProgInput) :
    ptsnameArgs (main os inp) = openptRets (main os inp) ∧
    grantptArgs (main os inp) = openptRets (main os inp) ∧
    unlockptArgs (main os inp) = openptRets (main os inp) :=
  ⟨rfl, rfl, rfl⟩

/-- Claim C6: on a run where allocation succeeds, grantpt and unlockpt
return 0, and ptsname returns a path, the program's entire standard output
is exactly that path followed by a single newline. -/
theorem C6_stdout_is_path (os : OSBehavior) (inp : ProgInput) (p : String)
    (h1 : 0 ≤ os.openptRet) (h2 : os.grantptRet = 0)
    (h3 : os.unlockptRet = 0) (h4 : os.ptsnameRet = some p) :
    (main os inp).stdout = p ++ "\n" := by
  simp [main, formatS, h4]

/-- Claim C6 witness: instantiation at a concrete fully-successful run. -/
theorem C6_stdout_is_path_witness :
    (main (OSBehavior.mk 6 0 0 (some ("/dev/pts/5")))
        (ProgInput.mk [] [] (""))).stdout = ("/dev/pts/5") ++ "\n" :=
  C6_stdout_is_path (OSBehavior.mk 6 0 0 (some ("/dev/pts/5")))
    (ProgInput.mk [] [] ("")) ("/dev/pts/5") (by decide) rfl rfl rfl

/-- Claim C7: on every run — whatever posix_openpt returns, including the
failure value — posix_openpt is invoked exactly once, and the value it
returned is exactly what flows to the rest of the run (no internal retry
substitutes a different result). -/
theorem C7_openpt_once (os : OSBehavior) (inp : ProgInput) :
    openptCalls (main os inp) = 1 ∧
    openptRets (main os inp) = [os.openptRet] ∧
    grantptArgs (main os inp) = [os.openptRet] :=
  ⟨rfl, rfl, rfl⟩

/-- Claim C8: main performs no error checking — for every result of
posix_openpt, including -1, it unconditionally calls grantpt, unlockpt and
ptsname on that very value, and hands ptsname's result to printf even when
that result is NULL (`none`). -/
theorem C8_no_error_checking (os : OSBehavior) (inp : ProgInput) :
    grantptArgs (main os inp) = [os.openptRet] ∧
    unlockptArgs (main os inp) = [os.openptRet] ∧
    ptsnameArgs (main os inp) = [os.openptRet] ∧
    printfArgs (main os inp) = [os.ptsnameRet] :=
  ⟨rfl, rfl, rfl, rfl⟩

/-- Claim C9: main always terminates with exit status 0, for every outcome
of the four PTY calls; no failure is reflected in the exit status. -/
theorem C9_exit_status_zero (os : OSBehavior) (inp : ProgInput) :
    (main os inp).exitStatus = 0 :=
  rfl

/-- Claim C10: main is deterministic in the OS responses — the sequence of
PTY calls it issues and the bytes it prints are a function only of the
values returned by posix_openpt and ptsname, and the whole observable run
is independent of argv, environment and standard input. -/
theorem C10_deterministic (os os' : OSBehavior) (inp inp' : ProgInput)
    (h1 : os.openptRet = os'.openptRet) (h2 : os.ptsnameRet = os'.ptsnameRet) :
    callsIssued (main os inp) = callsIssued (main os' inp') ∧
    (main os inp).stdout = (main os' inp').stdout ∧
    main os inp = main os inp' := by
  refine ⟨?_, ?_, rfl⟩
  · simp [callsIssued, main, h1]
  · simp [main, h2]

/-- Claim C10 witness: two concrete runs whose oracles agree on the
posix_openpt and ptsname results but differ on grantpt/unlockpt results,
with different argv/env/stdin, issue the same calls and print the same
bytes. -/
theorem C10_deterministic_witness :
    callsIssued (main (OSBehavior.mk 4 0 0 (some ("/dev/pts/2")))
        (ProgInput.mk [("a")] [(("K"), ("V"))] ("x"))) =
      callsIssued (main (OSBehavior.mk 4 (-1) (-1) (some ("/dev/pts/2")))
        (ProgInput.mk [] [] (""))) ∧
    (main (OSBehavior.mk 4 0 0 (some ("/dev/pts/2")))
        (ProgInput.mk [("a")] [(("K"), ("V"))] ("x"))).stdout =
      (main (OSBehavior.mk 4 (-1) (-1) (some ("/dev/pts/2")))
        (ProgInput.mk [] [] (""))).stdout ∧
    main (OSBehavior.mk 4 0 0 (some ("/dev/pts/2")))
        (ProgInput.mk [("a")] [(("K"), ("V"))] ("x")) =
      main (OSBehavior.mk 4 0 0 (some ("/dev/pts/2"))) (ProgInput.mk [] [] ("")) :=
  C10_deterministic (OSBehavior.mk 4 0 0 (some ("/dev/pts/2")))
    (OSBehavior.mk 4 (-1) (-1) (some ("/dev/pts/2")))
    (ProgInput.mk [("a")] [(("K"), ("V"))] ("x")) (ProgInput.mk [] [] (""))
    rfl rfl

end PtyKit
